import Mathlib

/-!
Shallow embedding of plexapi/server.py (class PlexServer and its helpers).

Python dicts over string keys are modelled as association lists with
first-match lookup and in-place overwrite.  The module-level mutable
state (the BASE_HEADERS dict from the plexapi package) is threaded
explicitly through every operation as a `PlexModule` value, together
with a ghost counter of transport calls, so that aliasing and request
counts become provable facts.  The HTTP transport (requests) and the
XML parser (xml.etree.ElementTree) are external collaborators: they are
passed to each operation as function parameters, and concrete instances
are supplied in witnesses.  Exceptions are modelled with `Except` over
an explicit error type.
-/

namespace PlexAPI

/-- A Python dict with string keys and string values, modelled as an
association list: lookup returns the first match, assignment overwrites
the existing entry in place or appends a fresh one. -/
abbrev Dict := List (String × String)

/-- Python d.get(key): first matching value, none when the key is absent. -/
def Dict.get : Dict → String → Option String
  | [], _ => none
  | (k, v) :: rest, key => if k = key then some v else Dict.get rest key

/-- Python d[key] = val: overwrite the existing entry in place, else append. -/
def Dict.set : Dict → String → String → Dict
  | [], key, val => [(key, val)]
  | (k, v) :: rest, key, val =>
      if k = key then (k, val) :: rest else (k, v) :: Dict.set rest key val

/-- Python d.update(other): assign every entry of other into d, in order. -/
def Dict.updateWith (d other : Dict) : Dict :=
  List.foldl (fun acc kv => Dict.set acc kv.1 kv.2) d other

/-- The keys of a dict, in order. -/
def Dict.keys (d : Dict) : List String := d.map Prod.fst

/-- An xml.etree.ElementTree.Element: a tag, an attribute dict, and an
ordered list of child elements. -/
inductive Element where
  | mk : String → Dict → List Element → Element

/-- The tag of an element. -/
def Element.tag : Element → String
  | .mk t _ _ => t

/-- The attribute dict of an element (Python elem.attrib). -/
def Element.attrib : Element → Dict
  | .mk _ a _ => a

/-- The child elements, in document order (Python iteration over elem). -/
def Element.children : Element → List Element
  | .mk _ _ c => c

/-- A requests HTTP response, restricted to the fields the code reads.
The reason field is the reason phrase the server sent on the status
line; server.py never reads it (it derives a code name from the
status-code table instead), but it is part of the response. -/
structure Response where
  status_code : Nat
  reason : String
  url : String
  text : String
deriving DecidableEq, Repr

/-- The exceptions the embedded code can raise.  BadRequest and NotFound
are the two plexapi exception classes server.py imports; the spec
additionally names a ConnectionFailure class, which the code never
raises — it is included so that statements about it can be expressed.
attributeError, keyError, typeError and valueError model the Python
builtin exceptions of the same names; transportError models any
exception raised by the requests transport (timeout, refused
connection); parseError models xml.etree.ElementTree.ParseError. -/
inductive PyError where
  | badRequest (msg : String)
  | notFound (msg : String)
  | connectionFailure (msg : String)
  | parseError (msg : String)
  | transportError (msg : String)
  | attributeError
  | keyError (key : String)
  | typeError (msg : String)
  | valueError (msg : String)
deriving DecidableEq, Repr

/-- Modelled from the requests library (external to this repository):
requests.status_codes._codes maps a status code to a tuple of code
names, of which server.py takes entry 0 via codes.get(status)[0].  Only
the rows needed here are reproduced; none models a status absent from
the table, where codes.get returns None and the subscript raises
TypeError. -/
def codesName (status : Nat) : Option String :=
  if status = 200 then some "ok"
  else if status = 201 then some "created"
  else if status = 301 then some "moved_permanently"
  else if status = 400 then some "bad_request"
  else if status = 401 then some "unauthorized"
  else if status = 403 then some "forbidden"
  else if status = 404 then some "not_found"
  else if status = 500 then some "internal_server_error"
  else if status = 503 then some "service_unavailable"
  else none

/-- Modelled from the spec: the Library object (plexapi/library.py is
not under src/).  server.py constructs it as Library(self, self.query(
'/library/')) and caches it; all this embedding needs is that it is a
value built from the query result, so it records that result. -/
structure Library where
  data : Option Element

/-- Modelled from the spec: the PlexClient descriptor (plexapi/client.py
is not under src/).  server.py constructs it as PlexClient(baseurl,
server=self, data=elem) with baseurl derived from the host and port
attributes; the embedding records the derived base URL and the node. -/
structure PlexClient where
  baseurl : String
  data : Element

/-- The module-level mutable state of the plexapi package, threaded
explicitly: BASE_HEADERS is the shared header dict defined at module
scope, and requestCount is a ghost counter of transport calls used to
state caching properties. -/
structure PlexModule where
  BASE_HEADERS : Dict
  requestCount : Nat

/-- The per-connection state of a PlexServer: base URL, token (the empty
string models an absent/None token, both falsy in Python), and the
lazily populated library cache (self._library). -/
structure PlexServer where
  baseurl : String
  token : String
  _library : Option Library

/-- PlexServer.url (server.py lines 233-238): build a full URL for PMS.
With a truthy token, append X-Plex-Token as a query parameter, with &
as delimiter when the path already contains a question mark, else with
a question mark; with no token, concatenate baseurl and path. -/
def PlexServer.url (s : PlexServer) (path : String) : String :=
  if s.token ≠ "" then
    (if path.data.contains '?' then
      s.baseurl ++ path ++ "&" ++ "X-Plex-Token=" ++ s.token
    else
      s.baseurl ++ path ++ "?" ++ "X-Plex-Token=" ++ s.token)
  else
    s.baseurl ++ path

/-- PlexServer.headers (server.py lines 152-157): bind the module-level
BASE_HEADERS dict (no copy), write the X-Plex-Token entry into it when a
token is configured, and return it.  The returned dict is the module
dict itself, so the write is visible in the module state. -/
def PlexServer.headers (s : PlexServer) (g : PlexModule) : Dict × PlexModule :=
  if s.token ≠ "" then
    (Dict.set g.BASE_HEADERS "X-Plex-Token" s.token,
     { g with BASE_HEADERS := Dict.set g.BASE_HEADERS "X-Plex-Token" s.token })
  else
    (g.BASE_HEADERS, g)

/-- The headers query actually sends (server.py lines 203-205):
h = self.headers().copy(); if headers: h.update(headers).  The copy is
value semantics here; a falsy (empty) caller dict skips the update. -/
def PlexServer.sentHeaders (s : PlexServer) (g : PlexModule) (callerHeaders : Dict) : Dict :=
  if callerHeaders = ([] : Dict) then (PlexServer.headers s g).1
  else Dict.updateWith (PlexServer.headers s g).1 callerHeaders

/-- PlexServer.query (server.py lines 183-212): build the URL, merge the
headers, issue the transport call (method), check the status code
against [200, 201], and on success parse the body with
ElementTree.fromstring unless it is empty, in which case return None.
method and fromstring are the external collaborators (requests and
ElementTree) passed as parameters; the transport-call counter is
incremented exactly once per call. -/
def PlexServer.query (s : PlexServer) (g : PlexModule)
    (method : String → Dict → Except String Response)
    (fromstring : String → Except String Element)
    (path : String) (callerHeaders : Dict) :
    PlexModule × Except PyError (Option Element) :=
  let h := PlexServer.sentHeaders s g callerHeaders
  let g2 : PlexModule :=
    { (PlexServer.headers s g).2 with
        requestCount := (PlexServer.headers s g).2.requestCount + 1 }
  match method (PlexServer.url s path) h with
  | .error msg => (g2, .error (PyError.transportError msg))
  | .ok response =>
    if response.status_code = 200 ∨ response.status_code = 201 then
      if response.text = "" then (g2, .ok none)
      else
        match fromstring response.text with
        | .ok elem => (g2, .ok (some elem))
        | .error m => (g2, .error (PyError.parseError m))
    else
      match codesName response.status_code with
      | none => (g2, .error (PyError.typeError "NoneType object is not subscriptable"))
      | some codename =>
        (g2, .error (PyError.badRequest
          ("(" ++ toString response.status_code ++ ") " ++ codename
            ++ " " ++ response.url)))

/-- PlexServer._connect (server.py lines 89-95): query the root path;
any exception whatsoever is replaced by NotFound with the message
built from the base URL. -/
def PlexServer._connect (s : PlexServer) (g : PlexModule)
    (method : String → Dict → Except String Response)
    (fromstring : String → Except String Element) :
    PlexModule × Except PyError (Option Element) :=
  match PlexServer.query s g method fromstring "/" [] with
  | (g2, .ok d) => (g2, .ok d)
  | (g2, .error _) =>
    (g2, .error (PyError.notFound ("No server found at: " ++ s.baseurl)))

/-- PlexServer.library (server.py lines 97-102): when self._library is
unset, query /library/ and cache a Library built from the result;
otherwise return the cached reference with no request. -/
def PlexServer.library (s : PlexServer) (g : PlexModule)
    (method : String → Dict → Except String Response)
    (fromstring : String → Except String Element) :
    PlexServer × PlexModule × Except PyError Library :=
  match s._library with
  | some lib => (s, g, .ok lib)
  | none =>
    match PlexServer.query s g method fromstring "/library/" [] with
    | (g2, .ok d) =>
      ({ s with _library := some (Library.mk d) }, g2, .ok (Library.mk d))
    | (g2, .error e) => (s, g2, .error e)

/-- The loop body of PlexServer.clients (server.py lines 116-120): one
PlexClient per element, with baseurl built from the host and port
attributes; a missing attribute raises KeyError (elem.attrib[...]),
host being subscripted first. -/
def buildClientList : List Element → Except PyError (List PlexClient)
  | [] => .ok []
  | elem :: rest =>
    match Dict.get (Element.attrib elem) "host" with
    | none => .error (PyError.keyError "host")
    | some host =>
      match Dict.get (Element.attrib elem) "port" with
      | none => .error (PyError.keyError "port")
      | some port =>
        (buildClientList rest).map
          (fun items =>
            PlexClient.mk ("http://" ++ host ++ ":" ++ port) elem :: items)

/-- PlexServer.clients (server.py lines 109-120): a fresh query of
/clients on every call, then one client descriptor per returned child
element.  Iterating None (empty body) raises TypeError in Python. -/
def PlexServer.clients (s : PlexServer) (g : PlexModule)
    (method : String → Dict → Except String Response)
    (fromstring : String → Except String Element) :
    PlexModule × Except PyError (List PlexClient) :=
  match PlexServer.query s g method fromstring "/clients" [] with
  | (g2, .error e) => (g2, .error e)
  | (g2, .ok none) => (g2, .error (PyError.typeError "NoneType object is not iterable"))
  | (g2, .ok (some container)) => (g2, buildClientList (Element.children container))

/-- Python str.lower(), modelled character-wise over the string's
characters so that it evaluates in proofs; on ASCII it agrees with
Python's str.lower(). -/
def pyLower (s : String) : String := String.mk (s.data.map Char.toLower)

/-- The scan of PlexServer.client (server.py lines 135-139): for each
element, elem.attrib.get('name').lower() is compared to name.lower();
when the name attribute is absent, .get returns None and calling
.lower() on it raises AttributeError; the first match is returned, and
an exhausted scan raises NotFound with the attempted name. -/
def clientScan : List Element → String → Except PyError PlexClient
  | [], name => .error (PyError.notFound ("Unknown client name: " ++ name))
  | elem :: rest, name =>
    match Dict.get (Element.attrib elem) "name" with
    | none => .error PyError.attributeError
    | some v =>
      if pyLower v = pyLower name then
        match Dict.get (Element.attrib elem) "host" with
        | none => .error (PyError.keyError "host")
        | some host =>
          match Dict.get (Element.attrib elem) "port" with
          | none => .error (PyError.keyError "port")
          | some port =>
            .ok (PlexClient.mk ("http://" ++ host ++ ":" ++ port) elem)
      else clientScan rest name

/-- PlexServer.client (server.py lines 122-139): a fresh query of
/clients, then the case-insensitive scan over the returned children. -/
def PlexServer.client (s : PlexServer) (g : PlexModule)
    (method : String → Dict → Except String Response)
    (fromstring : String → Except String Element)
    (name : String) : PlexModule × Except PyError PlexClient :=
  match PlexServer.query s g method fromstring "/clients" [] with
  | (g2, .error e) => (g2, .error e)
  | (g2, .ok none) => (g2, .error (PyError.typeError "NoneType object is not iterable"))
  | (g2, .ok (some container)) => (g2, clientScan (Element.children container) name)

/-- Python bool() of an optional attribute value: None and the empty
string are falsy, any other string is truthy (server.py line 73,
bool(data.attrib.get('myPlex'))). -/
def pyBool : Option String → Bool
  | none => false
  | some v => v ≠ ""

/-- Python int() of a string: strips surrounding whitespace, accepts an
optional sign and decimal digits, raises ValueError otherwise. -/
def pyInt (v : String) : Except PyError Int :=
  match v.trim.toInt? with
  | some n => .ok n
  | none => .error (PyError.valueError v)

/-- Python int(data.attrib.get(key, 0)) (server.py lines 80-81): a
missing attribute falls back to the integer 0; a present attribute is a
string converted with int(), which can raise ValueError. -/
def pyIntOfAttr (d : Dict) (key : String) : Except PyError Int :=
  match Dict.get d key with
  | none => .ok 0
  | some v => pyInt v

/-- The identity fields PlexServer.__init__ extracts from the root
element (server.py lines 71-82). -/
structure ServerAttrs where
  friendlyName : Option String
  machineIdentifier : Option String
  myPlex : Bool
  myPlexMappingState : Option String
  myPlexSigninState : Option String
  myPlexSubscription : Option String
  myPlexUsername : Option String
  platform : Option String
  platformVersion : Option String
  transcoderActiveVideoSessions : Int
  updatedAt : Int
  version : Option String
deriving Repr

/-- The attribute extraction of PlexServer.__init__ (server.py lines
71-82): every string field is data.attrib.get(key), yielding None when
absent; the two numeric fields use int() with default 0; myPlex is
bool() of the attribute. -/
def initServerAttrs (data : Element) : Except PyError ServerAttrs := do
  let tavs ← pyIntOfAttr (Element.attrib data) "transcoderActiveVideoSessions"
  let upd ← pyIntOfAttr (Element.attrib data) "updatedAt"
  pure
    { friendlyName := Dict.get (Element.attrib data) "friendlyName"
      machineIdentifier := Dict.get (Element.attrib data) "machineIdentifier"
      myPlex := pyBool (Dict.get (Element.attrib data) "myPlex")
      myPlexMappingState := Dict.get (Element.attrib data) "myPlexMappingState"
      myPlexSigninState := Dict.get (Element.attrib data) "myPlexSigninState"
      myPlexSubscription := Dict.get (Element.attrib data) "myPlexSubscription"
      myPlexUsername := Dict.get (Element.attrib data) "myPlexUsername"
      platform := Dict.get (Element.attrib data) "platform"
      platformVersion := Dict.get (Element.attrib data) "platformVersion"
      transcoderActiveVideoSessions := tavs
      updatedAt := upd
      version := Dict.get (Element.attrib data) "version" }

/-- The per-element match test of PlexServer.client, assuming the name
attribute present: the comparison elem.attrib.get('name').lower() ==
name.lower() is case-insensitive. -/
def nameMatches (name : String) (e : Element) : Bool :=
  match Dict.get (Element.attrib e) "name" with
  | some v => pyLower v = pyLower name
  | none => false

/-- Modelled from the spec: the Document Parser (xml.etree.ElementTree
.fromstring, external to this repository).  Malformed input must fail
with a ParseError; a well-formed document yields an element.  This
model recognises only the minimal self-closing form used in concrete
witnesses, an opening angle bracket, a tag name, and a closing slash
bracket, and fails on everything else, as the real parser fails on
those non-wellformed bodies. -/
def modelFromstring (body : String) : Except String Element :=
  if 3 ≤ body.data.length
      ∧ body.data.take 1 = ['<']
      ∧ body.data.drop (body.data.length - 2) = ['/', '>'] then
    .ok (Element.mk (String.mk ((body.data.drop 1).take (body.data.length - 3))) [] [])
  else
    .error "ParseError: not well-formed"

/-- The string sub occurs contiguously inside s. -/
def strContains (s sub : String) : Prop :=
  ∃ a b : List Char, s.data = a ++ sub.data ++ b

theorem Dict.get_set_self (d : Dict) (k v : String) :
    Dict.get (Dict.set d k v) k = some v := by
  induction d with
  | nil => simp [Dict.set, Dict.get]
  | cons kv rest ih =>
    by_cases h : kv.1 = k
    · simp [Dict.set, Dict.get, h]
    · simp [Dict.set, Dict.get, h, ih]

theorem Dict.get_set_ne (d : Dict) (k v k2 : String) (h : k ≠ k2) :
    Dict.get (Dict.set d k v) k2 = Dict.get d k2 := by
  induction d with
  | nil => simp [Dict.set, Dict.get, h]
  | cons kv rest ih =>
    by_cases hk : kv.1 = k
    · simp [Dict.set, Dict.get, hk, h]
    · simp [Dict.set, Dict.get, hk, ih]

theorem Dict.get_eq_none_of_not_mem (d : Dict) (k : String)
    (h : k ∉ Dict.keys d) : Dict.get d k = none := by
  induction d with
  | nil => rfl
  | cons kv rest ih =>
    obtain ⟨k1, v1⟩ := kv
    simp only [Dict.keys, List.map_cons, List.mem_cons] at h
    push_neg at h
    rw [Dict.get, if_neg (fun he => h.1 he.symm)]
    exact ih h.2

theorem Dict.mem_of_get_eq_some (d : Dict) (k v : String)
    (h : Dict.get d k = some v) : k ∈ Dict.keys d := by
  induction d with
  | nil => simp [Dict.get] at h
  | cons kv rest ih =>
    obtain ⟨k1, v1⟩ := kv
    simp only [Dict.keys, List.map_cons, List.mem_cons]
    by_cases hk : k1 = k
    · left; exact hk.symm
    · rw [Dict.get, if_neg hk] at h
      right
      exact ih h

theorem Dict.get_updateWith_of_not_mem (d c : Dict) (k : String)
    (h : k ∉ Dict.keys c) :
    Dict.get (Dict.updateWith d c) k = Dict.get d k := by
  induction c generalizing d with
  | nil => rfl
  | cons kv rest ih =>
    obtain ⟨k1, v1⟩ := kv
    simp only [Dict.keys, List.map_cons, List.mem_cons] at h
    push_neg at h
    show Dict.get (Dict.updateWith (Dict.set d k1 v1) rest) k = Dict.get d k
    rw [ih (Dict.set d k1 v1) h.2]
    exact Dict.get_set_ne _ _ _ _ (fun hkk => h.1 hkk.symm)

theorem Dict.get_updateWith_of_get (d c : Dict) (k v : String)
    (hnd : (Dict.keys c).Nodup) (h : Dict.get c k = some v) :
    Dict.get (Dict.updateWith d c) k = some v := by
  induction c generalizing d with
  | nil => simp [Dict.get] at h
  | cons kv rest ih =>
    obtain ⟨k1, v1⟩ := kv
    simp only [Dict.keys, List.map_cons, List.nodup_cons] at hnd
    show Dict.get (Dict.updateWith (Dict.set d k1 v1) rest) k = some v
    by_cases hk : k1 = k
    · rw [Dict.get, if_pos hk] at h
      have hnr : k ∉ Dict.keys rest := by
        rw [← hk]
        exact hnd.1
      rw [Dict.get_updateWith_of_not_mem _ _ _ hnr, ← hk, Dict.get_set_self]
      exact h
    · rw [Dict.get, if_neg hk] at h
      exact ih (Dict.set d k1 v1) hnd.2 h

theorem Dict.exists_get_of_mem (d : Dict) (k : String)
    (h : k ∈ Dict.keys d) : ∃ v, Dict.get d k = some v := by
  induction d with
  | nil => simp [Dict.keys] at h
  | cons kv rest ih =>
    obtain ⟨k1, v1⟩ := kv
    by_cases hk : k1 = k
    · exact ⟨v1, by rw [Dict.get, if_pos hk]⟩
    · simp only [Dict.keys, List.map_cons, List.mem_cons] at h
      rcases h with h | h
      · exact absurd h.symm hk
      · obtain ⟨v, hv⟩ := ih h
        exact ⟨v, by rw [Dict.get, if_neg hk]; exact hv⟩

theorem PlexServer.headers_requestCount (s : PlexServer) (g : PlexModule) :
    (PlexServer.headers s g).2.requestCount = g.requestCount := by
  unfold PlexServer.headers
  split <;> rfl

theorem PlexServer.query_fst (s : PlexServer) (g : PlexModule)
    (method : String → Dict → Except String Response)
    (fromstring : String → Except String Element)
    (path : String) (callerHeaders : Dict) :
    (PlexServer.query s g method fromstring path callerHeaders).1 =
      { (PlexServer.headers s g).2 with
          requestCount := (PlexServer.headers s g).2.requestCount + 1 } := by
  unfold PlexServer.query
  dsimp only
  cases method (PlexServer.url s path) (PlexServer.sentHeaders s g callerHeaders) with
  | error m => rfl
  | ok r =>
    dsimp only
    by_cases hs : r.status_code = 200 ∨ r.status_code = 201
    · rw [if_pos hs]
      by_cases ht : r.text = ""
      · rw [if_pos ht]
      · rw [if_neg ht]
        cases fromstring r.text <;> rfl
    · rw [if_neg hs]
      cases codesName r.status_code <;> rfl

theorem PlexServer.query_requestCount (s : PlexServer) (g : PlexModule)
    (method : String → Dict → Except String Response)
    (fromstring : String → Except String Element)
    (path : String) (callerHeaders : Dict) :
    (PlexServer.query s g method fromstring path callerHeaders).1.requestCount
      = g.requestCount + 1 := by
  rw [PlexServer.query_fst]
  show (PlexServer.headers s g).2.requestCount + 1 = g.requestCount + 1
  rw [PlexServer.headers_requestCount]

theorem PlexServer.clients_fst (s : PlexServer) (g : PlexModule)
    (method : String → Dict → Except String Response)
    (fromstring : String → Except String Element) :
    (PlexServer.clients s g method fromstring).1
      = (PlexServer.query s g method fromstring "/clients" []).1 := by
  unfold PlexServer.clients
  rcases PlexServer.query s g method fromstring "/clients" [] with ⟨g2, r⟩
  cases r with
  | error e => rfl
  | ok o => cases o <;> rfl

theorem buildClientList_spec (children : List Element)
    (hostf portf : Element → String)
    (h : ∀ e ∈ children,
      Dict.get (Element.attrib e) "host" = some (hostf e)
      ∧ Dict.get (Element.attrib e) "port" = some (portf e)) :
    buildClientList children
      = .ok (children.map
          (fun e => PlexClient.mk ("http://" ++ hostf e ++ ":" ++ portf e) e)) := by
  induction children with
  | nil => rfl
  | cons e rest ih =>
    have he := h e (by simp)
    rw [List.map_cons]
    unfold buildClientList
    rw [he.1, he.2, ih (fun x hx => h x (by simp [hx]))]
    rfl

theorem clientScan_spec (children : List Element) (name : String)
    (hn : ∀ e ∈ children, (Dict.get (Element.attrib e) "name").isSome) :
    (List.find? (nameMatches name) children = none →
      clientScan children name
        = .error (PyError.notFound ("Unknown client name: " ++ name)))
    ∧ (∀ e host port, List.find? (nameMatches name) children = some e →
        Dict.get (Element.attrib e) "host" = some host →
        Dict.get (Element.attrib e) "port" = some port →
        clientScan children name
          = .ok (PlexClient.mk ("http://" ++ host ++ ":" ++ port) e)) := by
  induction children with
  | nil =>
    constructor
    · intro _; rfl
    · intro e host port hfind
      simp [List.find?] at hfind
  | cons x rest ih =>
    have hx := hn x (by simp)
    rcases hgx : Dict.get (Element.attrib x) "name" with _ | v
    · rw [hgx] at hx; simp at hx
    · have ihr := ih (fun e he => hn e (by simp [he]))
      by_cases hm : pyLower v = pyLower name
      · have hmatch : nameMatches name x = true := by
          unfold nameMatches; rw [hgx]; simp [hm]
        constructor
        · intro hfind
          rw [List.find?_cons_of_pos _ hmatch] at hfind
          exact absurd hfind (by simp)
        · intro e host port hfind hhost hport
          rw [List.find?_cons_of_pos _ hmatch] at hfind
          have hex : x = e := by simpa using hfind
          subst hex
          unfold clientScan
          rw [hgx]
          dsimp only
          rw [if_pos hm, hhost]
          dsimp only
          rw [hport]
      · have hmatch : nameMatches name x = false := by
          unfold nameMatches; rw [hgx]; simp [hm]
        constructor
        · intro hfind
          rw [List.find?_cons_of_neg _ (by simp [hmatch])] at hfind
          unfold clientScan
          rw [hgx]
          dsimp only
          rw [if_neg hm]
          exact ihr.1 hfind
        · intro e host port hfind hhost hport
          rw [List.find?_cons_of_neg _ (by simp [hmatch])] at hfind
          unfold clientScan
          rw [hgx]
          dsimp only
          rw [if_neg hm]
          exact ihr.2 e host port hfind hhost hport

/-- A concrete module state for witnesses: one platform entry in
BASE_HEADERS and no transport calls yet. -/
def baseG : PlexModule := PlexModule.mk [("X-Plex-Platform", "Linux")] 0

/-- A concrete connection with a configured token, for witnesses. -/
def sTok : PlexServer := PlexServer.mk "http://host:32400" "SECRETTOKEN" none

/-- A concrete connection without a token, for witnesses. -/
def sAnon : PlexServer := PlexServer.mk "http://host:32400" "" none

/-- C2: for every path and base URL, with a token configured, url(path)
returns baseurl ++ path followed by the token query parameter, with &
as separator when the path already contains a question mark and a
question mark otherwise; with no token, url(path) returns exactly
baseurl ++ path unchanged. -/
theorem url_token_insertion (s : PlexServer) (path : String) :
    (s.token ≠ "" → path.data.contains '?' = false →
      PlexServer.url s path = s.baseurl ++ path ++ "?" ++ "X-Plex-Token=" ++ s.token)
    ∧ (s.token ≠ "" → path.data.contains '?' = true →
      PlexServer.url s path = s.baseurl ++ path ++ "&" ++ "X-Plex-Token=" ++ s.token)
    ∧ (s.token = "" → PlexServer.url s path = s.baseurl ++ path) := by
  refine ⟨fun h1 h2 => ?_, fun h1 h2 => ?_, fun h1 => ?_⟩
  · unfold PlexServer.url
    rw [if_pos h1, if_neg (by rw [h2]; simp)]
  · unfold PlexServer.url
    rw [if_pos h1, if_pos h2]
  · unfold PlexServer.url
    rw [if_neg (by simp [h1])]

/-- Witness for C2 at concrete inputs: a path without a question mark,
one with, and the no-token case. -/
theorem url_token_insertion_witness :
    PlexServer.url sTok "/library" = "http://host:32400" ++ "/library" ++ "?" ++ "X-Plex-Token=" ++ "SECRETTOKEN"
    ∧ PlexServer.url sTok "/search?query=a" = "http://host:32400" ++ "/search?query=a" ++ "&" ++ "X-Plex-Token=" ++ "SECRETTOKEN"
    ∧ PlexServer.url sAnon "/library" = "http://host:32400" ++ "/library" :=
  ⟨(url_token_insertion sTok "/library").1 (by decide) (by decide),
   (url_token_insertion sTok "/search?query=a").2.1 (by decide) (by decide),
   (url_token_insertion sAnon "/library").2.2 rfl⟩

/-- C10: headers() returns the module-level BASE_HEADERS dict itself
(not a copy) and, with a token configured, writes the X-Plex-Token key
into that shared dict in place, so a later headers() call on a
different, token-free connection observes the first connection's
token.  Aliasing is expressed through the threaded module state: the
returned dict equals the module dict after the call. -/
theorem headers_mutates_shared_base_headers (g : PlexModule) (s1 s2 : PlexServer)
    (h1 : s1.token ≠ "") (h2 : s2.token = "") :
    (PlexServer.headers s1 g).1 = (PlexServer.headers s1 g).2.BASE_HEADERS
    ∧ Dict.get (PlexServer.headers s1 g).2.BASE_HEADERS "X-Plex-Token" = some s1.token
    ∧ (PlexServer.headers s2 (PlexServer.headers s1 g).2).1
        = (PlexServer.headers s1 g).2.BASE_HEADERS
    ∧ Dict.get (PlexServer.headers s2 (PlexServer.headers s1 g).2).1 "X-Plex-Token"
        = some s1.token := by
  unfold PlexServer.headers
  rw [if_pos h1, if_neg (by simp [h2])]
  exact ⟨rfl, Dict.get_set_self _ _ _, rfl, Dict.get_set_self _ _ _⟩

/-- Witness for C10: the token-bearing connection taints the shared
dict, and the token-free one then returns it with the foreign token. -/
theorem headers_mutates_shared_base_headers_witness :
    sTok.token ≠ "" ∧ sAnon.token = ""
    ∧ ((PlexServer.headers sTok baseG).1 = (PlexServer.headers sTok baseG).2.BASE_HEADERS
      ∧ Dict.get (PlexServer.headers sTok baseG).2.BASE_HEADERS "X-Plex-Token" = some sTok.token
      ∧ (PlexServer.headers sAnon (PlexServer.headers sTok baseG).2).1
          = (PlexServer.headers sTok baseG).2.BASE_HEADERS
      ∧ Dict.get (PlexServer.headers sAnon (PlexServer.headers sTok baseG).2).1 "X-Plex-Token"
          = some sTok.token) :=
  ⟨by decide, rfl, headers_mutates_shared_base_headers baseG sTok sAnon (by decide) rfl⟩

/-- C5 (amended): the headers sent by query are the base set merged
with the auth header and then the caller headers, with caller entries
taking precedence; in particular a caller entry for X-Plex-Token
overrides the configured token, and the configured token is sent only
when the caller does not supply that key. -/
theorem sentHeaders_caller_precedence (s : PlexServer) (g : PlexModule) (caller : Dict)
    (hnd : (Dict.keys caller).Nodup) :
    (∀ k v, Dict.get caller k = some v →
      Dict.get (PlexServer.sentHeaders s g caller) k = some v)
    ∧ (s.token ≠ "" → Dict.get caller "X-Plex-Token" = none →
      Dict.get (PlexServer.sentHeaders s g caller) "X-Plex-Token" = some s.token) := by
  constructor
  · intro k v hk
    unfold PlexServer.sentHeaders
    have hne : caller ≠ ([] : Dict) := by
      intro hc
      rw [hc] at hk
      simp [Dict.get] at hk
    rw [if_neg hne]
    exact Dict.get_updateWith_of_get _ _ _ _ hnd hk
  · intro htok hnone
    unfold PlexServer.sentHeaders
    have hmem : "X-Plex-Token" ∉ Dict.keys caller := by
      intro hm
      obtain ⟨v, hv⟩ := Dict.exists_get_of_mem caller _ hm
      rw [hv] at hnone
      exact Option.noConfusion hnone
    by_cases hc : caller = ([] : Dict)
    · rw [if_pos hc]
      unfold PlexServer.headers
      rw [if_pos htok]
      exact Dict.get_set_self _ _ _
    · rw [if_neg hc, Dict.get_updateWith_of_not_mem _ _ _ hmem]
      unfold PlexServer.headers
      rw [if_pos htok]
      exact Dict.get_set_self _ _ _

/-- C5 counterexample: with token SECRETTOKEN configured, a caller
header X-Plex-Token=evil is what query actually sends, overriding the
configured auth header, contrary to the claim. -/
theorem sentHeaders_caller_overrides_auth :
    Dict.get (PlexServer.sentHeaders sTok baseG [("X-Plex-Token", "evil")]) "X-Plex-Token"
      = some "evil"
    ∧ Dict.get (PlexServer.sentHeaders sTok baseG [("X-Plex-Token", "evil")]) "X-Plex-Token"
      ≠ some sTok.token := by
  exact ⟨rfl, by decide⟩

/-- Witness for the amended C5: a caller header for a non-auth key is
sent as given, and with no caller entry for X-Plex-Token the
configured token is sent. -/
theorem sentHeaders_caller_precedence_witness :
    (Dict.keys [("Accept", "text/xml")]).Nodup
    ∧ Dict.get (PlexServer.sentHeaders sTok baseG [("Accept", "text/xml")]) "Accept"
        = some "text/xml"
    ∧ Dict.get (PlexServer.sentHeaders sTok baseG [("Accept", "text/xml")]) "X-Plex-Token"
        = some sTok.token :=
  ⟨by decide,
   (sentHeaders_caller_precedence sTok baseG [("Accept", "text/xml")] (by decide)).1
     "Accept" "text/xml" rfl,
   (sentHeaders_caller_precedence sTok baseG [("Accept", "text/xml")] (by decide)).2
     (by decide) rfl⟩

/-- C1 (amended): a response with status 200 or 201 passes the status
check and never raises BadRequest (a malformed body can still raise
ParseError); every other status whose code appears in the status-name
table raises BadRequest whose message is the status code in
parentheses, then the table name for that code (not the reason phrase
the server sent), then the response URL. -/
theorem query_status_code_contract (s : PlexServer) (g : PlexModule)
    (method : String → Dict → Except String Response)
    (fromstring : String → Except String Element)
    (path : String) (caller : Dict) (resp : Response)
    (hm : method (PlexServer.url s path) (PlexServer.sentHeaders s g caller) = .ok resp) :
    ((resp.status_code = 200 ∨ resp.status_code = 201) →
      ∀ m, (PlexServer.query s g method fromstring path caller).2
        ≠ .error (PyError.badRequest m))
    ∧ (∀ cn, ¬(resp.status_code = 200 ∨ resp.status_code = 201) →
        codesName resp.status_code = some cn →
        (PlexServer.query s g method fromstring path caller).2
          = .error (PyError.badRequest
              ("(" ++ toString resp.status_code ++ ") " ++ cn ++ " " ++ resp.url))) := by
  constructor
  · intro hs m
    unfold PlexServer.query
    dsimp only
    rw [hm]
    dsimp only
    rw [if_pos hs]
    by_cases ht : resp.text = ""
    · rw [if_pos ht]
      simp
    · rw [if_neg ht]
      cases fromstring resp.text <;> simp
  · intro cn hs hcn
    unfold PlexServer.query
    dsimp only
    rw [hm]
    dsimp only
    rw [if_neg hs, hcn]

/-- C1 counterexample: a 200 response with a malformed body raises
ParseError, so 200 does not mean query never raises; and the
BadRequest message carries the status-table name not_found, which
differs from the reason phrase Not Found the server sent. -/
theorem query_success_can_raise_and_reason_differs :
    (PlexServer.query sAnon baseG
        (fun _ _ => .ok (Response.mk 200 "OK" "http://host:32400/" "<"))
        modelFromstring "/" []).2
      = .error (PyError.parseError "ParseError: not well-formed")
    ∧ (PlexServer.query sAnon baseG
        (fun _ _ => .ok (Response.mk 404 "Not Found" "http://host:32400/bogus" ""))
        modelFromstring "/bogus" []).2
      = .error (PyError.badRequest "(404) not_found http://host:32400/bogus")
    ∧ ("(404) not_found http://host:32400/bogus" : String)
        ≠ "(404) Not Found http://host:32400/bogus" :=
  ⟨rfl, rfl, by decide⟩

/-- Witness for the amended C1: a 200 response never yields BadRequest,
and a 404 response yields BadRequest with the (status) codename url
message. -/
theorem query_status_code_contract_witness :
    ((PlexServer.query sAnon baseG
        (fun _ _ => .ok (Response.mk 200 "OK" "http://host:32400/" ""))
        modelFromstring "/" []).2
      ≠ .error (PyError.badRequest "(404) not_found http://host:32400/bogus"))
    ∧ ((PlexServer.query sAnon baseG
        (fun _ _ => .ok (Response.mk 404 "Not Found" "http://host:32400/bogus" ""))
        modelFromstring "/bogus" []).2
      = .error (PyError.badRequest
          ("(" ++ toString (404 : Nat) ++ ") " ++ "not_found" ++ " " ++ "http://host:32400/bogus"))) :=
  ⟨(query_status_code_contract sAnon baseG _ modelFromstring "/" []
      (Response.mk 200 "OK" "http://host:32400/" "") rfl).1 (Or.inl rfl) _,
   (query_status_code_contract sAnon baseG _ modelFromstring "/bogus" []
      (Response.mk 404 "Not Found" "http://host:32400/bogus" "") rfl).2 "not_found"
      (by decide) rfl⟩

/-- C7: a zero-length response body makes query return the None
sentinel, never an error; a non-empty body is handed to the XML parser
and yields its node tree (or its ParseError); and the sentinel is
distinguishable from every populated node. -/
theorem query_empty_body_sentinel (s : PlexServer) (g : PlexModule)
    (method : String → Dict → Except String Response)
    (fromstring : String → Except String Element)
    (path : String) (caller : Dict) (resp : Response)
    (hm : method (PlexServer.url s path) (PlexServer.sentHeaders s g caller) = .ok resp)
    (hs : resp.status_code = 200 ∨ resp.status_code = 201) :
    (resp.text = "" →
      (PlexServer.query s g method fromstring path caller).2 = .ok none)
    ∧ (resp.text ≠ "" →
      (PlexServer.query s g method fromstring path caller).2
        = (match fromstring resp.text with
           | .ok elem => .ok (some elem)
           | .error m => .error (PyError.parseError m)))
    ∧ (∀ e : Element,
        (Except.ok (some e) : Except PyError (Option Element)) ≠ Except.ok none) := by
  refine ⟨fun ht => ?_, fun ht => ?_, fun e h => by simp at h⟩
  · unfold PlexServer.query
    dsimp only
    rw [hm]
    dsimp only
    rw [if_pos hs, if_pos ht]
  · unfold PlexServer.query
    dsimp only
    rw [hm]
    dsimp only
    rw [if_pos hs, if_neg ht]
    cases fromstring resp.text <;> rfl

/-- Witness for C7: an empty body yields the None sentinel and a
well-formed body yields a parsed node. -/
theorem query_empty_body_sentinel_witness :
    ((PlexServer.query sAnon baseG
        (fun _ _ => .ok (Response.mk 200 "OK" "http://host:32400/" ""))
        modelFromstring "/" []).2 = .ok none)
    ∧ ((PlexServer.query sAnon baseG
        (fun _ _ => .ok (Response.mk 200 "OK" "http://host:32400/" "<a/>"))
        modelFromstring "/" []).2
      = (match modelFromstring "<a/>" with
         | .ok elem => .ok (some elem)
         | .error m => .error (PyError.parseError m))) :=
  ⟨(query_empty_body_sentinel sAnon baseG _ modelFromstring "/" []
      (Response.mk 200 "OK" "http://host:32400/" "") rfl (Or.inl rfl)).1 rfl,
   (query_empty_body_sentinel sAnon baseG _ modelFromstring "/" []
      (Response.mk 200 "OK" "http://host:32400/" "<a/>") rfl (Or.inl rfl)).2.1 (by decide)⟩

/-- C3 (amended): every failure during the construction-time handshake
(the GET of the root path) is reported as NotFound, not
ConnectionFailure, with the message No server found at: followed by
the attempted base URL, regardless of the underlying cause. -/
theorem connect_failure_collapse (s : PlexServer) (g : PlexModule)
    (method : String → Dict → Except String Response)
    (fromstring : String → Except String Element) (e : PyError)
    (hq : (PlexServer.query s g method fromstring "/" []).2 = .error e) :
    PlexServer._connect s g method fromstring
      = ((PlexServer.query s g method fromstring "/" []).1,
         .error (PyError.notFound ("No server found at: " ++ s.baseurl))) := by
  unfold PlexServer._connect
  rcases h2 : PlexServer.query s g method fromstring "/" [] with ⟨g2, r⟩
  cases r with
  | ok d =>
    rw [h2] at hq
    exact Except.noConfusion hq
  | error err => rfl

/-- The handshake outcome at a concrete refused connection, named so
the counterexample can state both what it is and what it is not. -/
def connectRefusedResult : Except PyError (Option Element) :=
  (PlexServer._connect (PlexServer.mk "http://localhost:32400" "" none) baseG
      (fun _ _ => .error "ConnectionError: connection refused") modelFromstring).2

/-- C3 counterexample: at a refused connection the error raised is
NotFound with message No server found at: http://localhost:32400 — it
is not the ConnectionFailure with message no server found at
http://localhost:32400 that the claim states. -/
theorem connect_raises_notFound_not_connectionFailure :
    connectRefusedResult
      = .error (PyError.notFound "No server found at: http://localhost:32400")
    ∧ connectRefusedResult
      ≠ .error (PyError.connectionFailure "no server found at http://localhost:32400") := by
  have h0 : connectRefusedResult
      = .error (PyError.notFound "No server found at: http://localhost:32400") := rfl
  refine ⟨h0, fun h => ?_⟩
  rw [h0] at h
  exact PyError.noConfusion (Except.error.inj h)

/-- Witness for the amended C3: a timed-out transport call makes query
fail and _connect reports NotFound with the base URL. -/
theorem connect_failure_collapse_witness :
    ((PlexServer.query (PlexServer.mk "http://localhost:32400" "" none) baseG
        (fun _ _ => .error "ReadTimeout") modelFromstring "/" []).2
      = .error (PyError.transportError "ReadTimeout"))
    ∧ (PlexServer._connect (PlexServer.mk "http://localhost:32400" "" none) baseG
        (fun _ _ => .error "ReadTimeout") modelFromstring
      = ((PlexServer.query (PlexServer.mk "http://localhost:32400" "" none) baseG
            (fun _ _ => .error "ReadTimeout") modelFromstring "/" []).1,
         .error (PyError.notFound "No server found at: http://localhost:32400"))) :=
  ⟨rfl, connect_failure_collapse (PlexServer.mk "http://localhost:32400" "" none) baseG
      (fun _ _ => .error "ReadTimeout") modelFromstring
      (PyError.transportError "ReadTimeout") rfl⟩

/-- C4 (amended): whenever a token is configured and the transport
reports the requested URL back (as requests does), the BadRequest
raised for a non-success status carries the full request URL with the
token query parameter unredacted, so the configured token string does
appear in the error message. -/
theorem badRequest_message_contains_token (s : PlexServer) (g : PlexModule)
    (method : String → Dict → Except String Response)
    (fromstring : String → Except String Element)
    (path : String) (caller : Dict) (resp : Response) (cn : String)
    (htok : s.token ≠ "")
    (hm : method (PlexServer.url s path) (PlexServer.sentHeaders s g caller) = .ok resp)
    (hurl : resp.url = PlexServer.url s path)
    (hs : ¬(resp.status_code = 200 ∨ resp.status_code = 201))
    (hcn : codesName resp.status_code = some cn) :
    (PlexServer.query s g method fromstring path caller).2
      = .error (PyError.badRequest
          ("(" ++ toString resp.status_code ++ ") " ++ cn ++ " " ++ resp.url))
    ∧ strContains
        ("(" ++ toString resp.status_code ++ ") " ++ cn ++ " " ++ resp.url)
        s.token := by
  constructor
  · unfold PlexServer.query
    dsimp only
    rw [hm]
    dsimp only
    rw [if_neg hs, hcn]
  · rw [hurl]
    unfold PlexServer.url
    rw [if_pos htok]
    by_cases hq : path.data.contains '?' = true
    · rw [if_pos hq]
      refine ⟨("(" ++ toString resp.status_code ++ ") " ++ cn ++ " "
          ++ s.baseurl ++ path ++ "&" ++ "X-Plex-Token=").data, [], ?_⟩
      simp [String.data_append]
    · rw [if_neg hq]
      refine ⟨("(" ++ toString resp.status_code ++ ") " ++ cn ++ " "
          ++ s.baseurl ++ path ++ "?" ++ "X-Plex-Token=").data, [], ?_⟩
      simp [String.data_append]

/-- C4 counterexample: with token SECRETTOKEN configured, a 404 on /x
raises a BadRequest whose message contains the cleartext token inside
the unredacted URL, contradicting the claim that the token never
appears in error messages. -/
theorem badRequest_token_leak :
    (PlexServer.query sTok baseG
        (fun u _ => .ok (Response.mk 404 "Not Found" u ""))
        modelFromstring "/x" []).2
      = .error (PyError.badRequest
          "(404) not_found http://host:32400/x?X-Plex-Token=SECRETTOKEN")
    ∧ strContains "(404) not_found http://host:32400/x?X-Plex-Token=SECRETTOKEN"
        "SECRETTOKEN" :=
  ⟨rfl, ⟨"(404) not_found http://host:32400/x?X-Plex-Token=".data, [], by decide⟩⟩

/-- Witness for the amended C4 at a concrete echoing transport. -/
theorem badRequest_message_contains_token_witness :
    ((PlexServer.query sTok baseG
        (fun u _ => .ok (Response.mk 404 "Not Found" u ""))
        modelFromstring "/x" []).2
      = .error (PyError.badRequest
          ("(" ++ toString (404 : Nat) ++ ") " ++ "not_found" ++ " "
            ++ (Response.mk 404 "Not Found" (PlexServer.url sTok "/x") "").url)))
    ∧ strContains
        ("(" ++ toString (404 : Nat) ++ ") " ++ "not_found" ++ " "
          ++ (Response.mk 404 "Not Found" (PlexServer.url sTok "/x") "").url)
        sTok.token :=
  badRequest_message_contains_token sTok baseG
    (fun u _ => .ok (Response.mk 404 "Not Found" u "")) modelFromstring "/x" []
    (Response.mk 404 "Not Found" (PlexServer.url sTok "/x") "") "not_found"
    (by decide) rfl rfl (by decide) rfl

/-- C6: with the library cache already populated, a library access
returns the same cached reference and leaves the state (and the
transport-call count) untouched; clients() issues a fresh transport
call every time and derives each descriptor's base URL from the host
and port attributes the server reported, not from the connection's own
base URL. -/
theorem library_cached_clients_fresh (s : PlexServer) (g : PlexModule) (lib : Library)
    (method : String → Dict → Except String Response)
    (fromstring : String → Except String Element)
    (hcache : s._library = some lib) :
    PlexServer.library s g method fromstring = (s, g, .ok lib)
    ∧ (PlexServer.clients s g method fromstring).1.requestCount = g.requestCount + 1
    ∧ (∀ g2 container (hostf portf : Element → String),
        PlexServer.query s g method fromstring "/clients" [] = (g2, .ok (some container)) →
        (∀ e ∈ Element.children container,
          Dict.get (Element.attrib e) "host" = some (hostf e)
          ∧ Dict.get (Element.attrib e) "port" = some (portf e)) →
        PlexServer.clients s g method fromstring
          = (g2, .ok ((Element.children container).map
              (fun e => PlexClient.mk ("http://" ++ hostf e ++ ":" ++ portf e) e)))) := by
  refine ⟨?_, ?_, ?_⟩
  · unfold PlexServer.library
    rw [hcache]
  · rw [PlexServer.clients_fst, PlexServer.query_requestCount]
  · intro g2 container hostf portf hq hattrs
    unfold PlexServer.clients
    rw [hq]
    show (g2, buildClientList (Element.children container)) = _
    rw [buildClientList_spec (Element.children container) hostf portf hattrs]

/-- A cached Library value for witnesses. -/
def lib0 : Library := Library.mk none

/-- A connection whose library cache is already populated, for
witnesses. -/
def sLib : PlexServer := PlexServer.mk "http://host:32400" "" (some lib0)

/-- The /clients element a concrete transport returns: one Server child
named BOB reachable at 10.0.0.1:32400. -/
def clientsContainer : Element :=
  Element.mk "MediaContainer" []
    [Element.mk "Server" [("name", "BOB"), ("host", "10.0.0.1"), ("port", "32400")] []]

/-- A concrete transport answering 200 with a non-empty body. -/
def clientsMethod : String → Dict → Except String Response :=
  fun u _ => .ok (Response.mk 200 "OK" u "<MediaContainer/>")

/-- A concrete parser returning the clients container. -/
def clientsFromstring : String → Except String Element :=
  fun _ => .ok clientsContainer

/-- Witness for C6: cached library access is a no-op on the state, and
clients() performs a transport call and builds the descriptor from the
reported host and port. -/
theorem library_cached_clients_fresh_witness :
    sLib._library = some lib0
    ∧ PlexServer.library sLib baseG clientsMethod clientsFromstring = (sLib, baseG, .ok lib0)
    ∧ (PlexServer.clients sLib baseG clientsMethod clientsFromstring).1.requestCount
        = baseG.requestCount + 1
    ∧ PlexServer.clients sLib baseG clientsMethod clientsFromstring
        = (PlexModule.mk [("X-Plex-Platform", "Linux")] 1,
           .ok [PlexClient.mk "http://10.0.0.1:32400"
             (Element.mk "Server"
               [("name", "BOB"), ("host", "10.0.0.1"), ("port", "32400")] [])]) :=
  ⟨rfl,
   (library_cached_clients_fresh sLib baseG lib0 clientsMethod clientsFromstring rfl).1,
   (library_cached_clients_fresh sLib baseG lib0 clientsMethod clientsFromstring rfl).2.1,
   (library_cached_clients_fresh sLib baseG lib0 clientsMethod clientsFromstring rfl).2.2
     (PlexModule.mk [("X-Plex-Platform", "Linux")] 1) clientsContainer
     (fun _ => "10.0.0.1") (fun _ => "32400") rfl
     (fun e he => by rw [List.mem_singleton.mp he]; exact ⟨rfl, rfl⟩)⟩

/-- C9: client(name) queries /clients afresh, matches the name
attribute case-insensitively (both sides lowered), returns the first
matching descriptor, and raises NotFound carrying the attempted name
when nothing matches. -/
theorem client_case_insensitive_lookup (s : PlexServer) (g : PlexModule)
    (method : String → Dict → Except String Response)
    (fromstring : String → Except String Element)
    (name : String) (g2 : PlexModule) (container : Element)
    (hq : PlexServer.query s g method fromstring "/clients" [] = (g2, .ok (some container)))
    (hn : ∀ e ∈ Element.children container, (Dict.get (Element.attrib e) "name").isSome) :
    g2.requestCount = g.requestCount + 1
    ∧ (List.find? (nameMatches name) (Element.children container) = none →
        PlexServer.client s g method fromstring name
          = (g2, .error (PyError.notFound ("Unknown client name: " ++ name))))
    ∧ (∀ e host port,
        List.find? (nameMatches name) (Element.children container) = some e →
        Dict.get (Element.attrib e) "host" = some host →
        Dict.get (Element.attrib e) "port" = some port →
        PlexServer.client s g method fromstring name
          = (g2, .ok (PlexClient.mk ("http://" ++ host ++ ":" ++ port) e))) := by
  have hc := clientScan_spec (Element.children container) name hn
  refine ⟨?_, fun hfind => ?_, fun e host port hfind hhost hport => ?_⟩
  · have hrc := PlexServer.query_requestCount s g method fromstring "/clients" []
    rw [hq] at hrc
    exact hrc
  · unfold PlexServer.client
    rw [hq]
    show (g2, clientScan (Element.children container) name) = _
    rw [hc.1 hfind]
  · unfold PlexServer.client
    rw [hq]
    show (g2, clientScan (Element.children container) name) = _
    rw [hc.2 e host port hfind hhost hport]

/-- Witness for C9: client Bob matches the entry named BOB, and client
Nonexistent raises NotFound with the attempted name in the message. -/
theorem client_case_insensitive_lookup_witness :
    PlexServer.client sLib baseG clientsMethod clientsFromstring "Bob"
      = (PlexModule.mk [("X-Plex-Platform", "Linux")] 1,
         .ok (PlexClient.mk "http://10.0.0.1:32400"
           (Element.mk "Server"
             [("name", "BOB"), ("host", "10.0.0.1"), ("port", "32400")] [])))
    ∧ PlexServer.client sLib baseG clientsMethod clientsFromstring "Nonexistent"
      = (PlexModule.mk [("X-Plex-Platform", "Linux")] 1,
         .error (PyError.notFound ("Unknown client name: " ++ "Nonexistent"))) :=
  ⟨(client_case_insensitive_lookup sLib baseG clientsMethod clientsFromstring "Bob"
      (PlexModule.mk [("X-Plex-Platform", "Linux")] 1) clientsContainer rfl
      (fun e he => by rw [List.mem_singleton.mp he]; rfl)).2.2
      (Element.mk "Server" [("name", "BOB"), ("host", "10.0.0.1"), ("port", "32400")] [])
      "10.0.0.1" "32400" rfl rfl rfl,
   (client_case_insensitive_lookup sLib baseG clientsMethod clientsFromstring "Nonexistent"
      (PlexModule.mk [("X-Plex-Platform", "Linux")] 1) clientsContainer rfl
      (fun e he => by rw [List.mem_singleton.mp he]; rfl)).2.1 rfl⟩

/-- C8 (amended): attribute extraction in __init__ is total — a missing
string attribute yields None, a missing myPlex yields False, and the
numeric transcoderActiveVideoSessions and updatedAt default to 0 rather
than raising; but extraction in client() is not total: a listed entry
lacking the name attribute raises AttributeError (see the
counterexample). -/
theorem init_extraction_total (data : Element)
    (h1 : Dict.get (Element.attrib data) "transcoderActiveVideoSessions" = none)
    (h2 : Dict.get (Element.attrib data) "updatedAt" = none) :
    initServerAttrs data = .ok
      { friendlyName := Dict.get (Element.attrib data) "friendlyName"
        machineIdentifier := Dict.get (Element.attrib data) "machineIdentifier"
        myPlex := pyBool (Dict.get (Element.attrib data) "myPlex")
        myPlexMappingState := Dict.get (Element.attrib data) "myPlexMappingState"
        myPlexSigninState := Dict.get (Element.attrib data) "myPlexSigninState"
        myPlexSubscription := Dict.get (Element.attrib data) "myPlexSubscription"
        myPlexUsername := Dict.get (Element.attrib data) "myPlexUsername"
        platform := Dict.get (Element.attrib data) "platform"
        platformVersion := Dict.get (Element.attrib data) "platformVersion"
        transcoderActiveVideoSessions := 0
        updatedAt := 0
        version := Dict.get (Element.attrib data) "version" } := by
  unfold initServerAttrs pyIntOfAttr
  rw [h1, h2]
  rfl

/-- C8 counterexample: a client listing whose entry lacks the name
attribute makes client() raise AttributeError (calling lower() on
None), a hard failure rather than a permissive default, contradicting
the claim that extraction never hard-fails. -/
theorem client_missing_name_hard_failure :
    (PlexServer.client sLib baseG
        (fun u _ => .ok (Response.mk 200 "OK" u "<MediaContainer/>"))
        (fun _ => .ok (Element.mk "MediaContainer" []
          [Element.mk "Server" [("host", "10.0.0.1"), ("port", "32400")] []]))
        "Bob").2
      = .error PyError.attributeError := rfl

/-- Witness for the amended C8: a root element carrying only a friendly
name yields defaulted fields, with the active-session count 0. -/
theorem init_extraction_total_witness :
    (Dict.get
        (Element.attrib (Element.mk "MediaContainer" [("friendlyName", "myserver")] []))
        "transcoderActiveVideoSessions" = none)
    ∧ initServerAttrs (Element.mk "MediaContainer" [("friendlyName", "myserver")] [])
        = .ok
          { friendlyName := some "myserver"
            machineIdentifier := none
            myPlex := false
            myPlexMappingState := none
            myPlexSigninState := none
            myPlexSubscription := none
            myPlexUsername := none
            platform := none
            platformVersion := none
            transcoderActiveVideoSessions := 0
            updatedAt := 0
            version := none } :=
  ⟨rfl,
   init_extraction_total (Element.mk "MediaContainer" [("friendlyName", "myserver")] [])
     rfl rfl⟩

end PlexAPI
